import Mathlib

/-!
# k8s-ingress-generator: provisioning and deprovisioning handlers

A shallow embedding of `k8s/handlers.go` (`Post`, `Delete`) and
`k8s/services.go` (`Create*`, `Find*`, `Delete*`).

* Go strings are modelled by Lean strings. The only byte the code inspects is
  the separator `.` (0x2E), which never occurs inside a multi-byte UTF-8
  sequence, so splitting by character and splitting by byte agree.
* A Go `map[string]string` literal is an association list in source order;
  a read `m[k]` is `GoMap.index`, which yields the empty string for a missing key.
* The cluster control plane is a `Clientset` over an abstract cluster state;
  every call of the clientset is appended to the call log of the `World`.
* A request is given by its decoded body or its decoding error; the
  identifiers of `uuid.New()` are an input of `Post`.
* Logging (`log.Info`, `log.Error`, `fmt.Println`) has no effect on the
  response or on the cluster and is left out.
-/

set_option autoImplicit false
set_option linter.dupNamespace false

namespace K8s

/-! ## Go library functions used by the handlers -/

/-- Go `strings.IndexByte`: index of the first occurrence of `c`, `none` for -1. -/
def indexByte : List Char → Char → Option Nat
  | [], _ => none
  | x :: xs, c => if x = c then some 0 else (indexByte xs c).map (· + 1)

/-- Go `bytealg.CountString`: number of occurrences of `c`. -/
def countByte : List Char → Char → Nat
  | [], _ => 0
  | x :: xs, c => (if x = c then 1 else 0) + countByte xs c

/-- The loop of Go `genSplit` for a one-byte separator and `sepSave = 0`.
The first argument is `n - 1 - i`, the number of iterations still allowed;
the result is the slice `a[:i+1]` from the current `i` on. -/
def genSplitLoop (sep : Char) : Nat → List Char → List (List Char)
  | 0, s => [s]
  | k + 1, s =>
    match indexByte s sep with
    | none => [s]
    | some m => s.take m :: genSplitLoop sep k (s.drop (m + 1))

/-- Go `strings.Split(s, sep)` for a separator `sep` of one byte, which is
`genSplit(s, sep, 0, -1)`: `n` is `Count(s, sep) + 1`, capped at `len(s) + 1`
(`len` is the length in bytes), and the loop runs while `i < n - 1`. -/
def stringsSplit (s : String) (sep : Char) : List String :=
  let n := countByte s.data sep + 1
  let n := if n > s.utf8ByteSize + 1 then s.utf8ByteSize + 1 else n
  (genSplitLoop sep (n - 1) s.data).map String.mk

/-- A Go `map[string]string`, as the list of its entries. -/
abbrev GoMap := List (String × String)

/-- A map lookup with presence flag, `v, ok := m[k]`. -/
def GoMap.lookup (m : GoMap) (k : String) : Option String :=
  match m with
  | [] => none
  | (k', v) :: rest => if k' = k then some v else GoMap.lookup rest k

/-- A map read `m[k]`: the zero value `""` when the key is missing. -/
def GoMap.index (m : GoMap) (k : String) : String :=
  (m.lookup k).getD ""

/-- Equality of two maps as key/value maps: the same keys with the same values. -/
def GoMap.Equal (m₁ m₂ : GoMap) : Prop :=
  ∀ k, m₁.lookup k = m₂.lookup k

/-- Map inclusion: every key/value pair of `m₁` is a pair of `m₂`. -/
def GoMap.Sub (m₁ m₂ : GoMap) : Prop :=
  ∀ k v, m₁.lookup k = some v → m₂.lookup k = some v

/-! ## The Kubernetes API objects, restricted to the fields the handlers set or read -/

/-- Go `metav1.TypeMeta`. -/
structure TypeMeta where
  Kind : String := ""
  APIVersion : String := ""
  deriving DecidableEq, Repr

/-- Go `metav1.ObjectMeta`. -/
structure ObjectMeta where
  Name : String := ""
  GenerateName : String := ""
  Namespace : String := ""
  UID : String := ""
  Labels : GoMap := []
  Annotations : GoMap := []
  deriving DecidableEq, Repr

/-- Go `corev1.Protocol`. -/
inductive Protocol where
  | ProtocolTCP
  | ProtocolUDP
  | ProtocolSCTP
  deriving DecidableEq, Repr

/-- Go `corev1.ContainerPort`. -/
structure ContainerPort where
  Name : String
  ContainerPort : Int
  Protocol : Protocol
  deriving DecidableEq, Repr

/-- Go `corev1.LocalObjectReference`. -/
structure LocalObjectReference where
  Name : String
  deriving DecidableEq, Repr

/-- Go `corev1.SecretEnvSource`; `Optional` is a `*bool`. -/
structure SecretEnvSource where
  LocalObjectReference : LocalObjectReference
  Optional : Option Bool
  deriving DecidableEq, Repr

/-- Go `corev1.EnvFromSource`; `SecretRef` is a pointer. -/
structure EnvFromSource where
  SecretRef : Option SecretEnvSource
  deriving DecidableEq, Repr

/-- Go `corev1.SecurityContext`; every field is a `*bool`. -/
structure SecurityContext where
  AllowPrivilegeEscalation : Option Bool
  Privileged : Option Bool
  ReadOnlyRootFilesystem : Option Bool
  RunAsNonRoot : Option Bool
  deriving DecidableEq, Repr

/-- Go `corev1.PullPolicy`. -/
inductive PullPolicy where
  | PullAlways
  | PullNever
  | PullIfNotPresent
  deriving DecidableEq, Repr

/-- Go `corev1.Container`. -/
structure Container where
  Name : String
  Image : String
  Ports : List ContainerPort
  EnvFrom : List EnvFromSource
  ImagePullPolicy : PullPolicy
  SecurityContext : Option SecurityContext
  deriving DecidableEq, Repr

/-- Go `corev1.PodSpec`. -/
structure PodSpec where
  Containers : List Container
  ImagePullSecrets : List LocalObjectReference
  deriving DecidableEq, Repr

/-- Go `corev1.Pod`. -/
structure Pod where
  ObjectMeta : ObjectMeta
  Spec : PodSpec
  deriving DecidableEq, Repr

/-- Go `corev1.PodTemplateSpec`. -/
structure PodTemplateSpec where
  ObjectMeta : ObjectMeta
  Spec : PodSpec
  deriving DecidableEq, Repr

/-- Go `metav1.LabelSelector`. -/
structure LabelSelector where
  MatchLabels : GoMap
  deriving DecidableEq, Repr

/-- Go `intstr.IntOrString`: the `Type` tag with the value it selects. -/
inductive IntOrString where
  | Int (IntVal : Int)
  | String (StrVal : String)
  deriving DecidableEq, Repr

/-- Go `appsv1.RollingUpdateDeployment`; both fields are pointers. -/
structure RollingUpdateDeployment where
  MaxUnavailable : Option IntOrString
  MaxSurge : Option IntOrString
  deriving DecidableEq, Repr

/-- Go `appsv1.DeploymentStrategyType`. -/
inductive DeploymentStrategyType where
  | RecreateDeploymentStrategyType
  | RollingUpdateDeploymentStrategyType
  deriving DecidableEq, Repr

/-- Go `appsv1.DeploymentStrategy`; the Go field `Type` is `StrategyType` here. -/
structure DeploymentStrategy where
  StrategyType : DeploymentStrategyType
  RollingUpdate : Option RollingUpdateDeployment
  deriving DecidableEq, Repr

/-- Go `appsv1.DeploymentSpec`. -/
structure DeploymentSpec where
  Selector : Option LabelSelector
  Strategy : DeploymentStrategy
  Template : PodTemplateSpec
  deriving DecidableEq, Repr

/-- Go `appsv1.Deployment`. -/
structure Deployment where
  TypeMeta : TypeMeta := {}
  ObjectMeta : ObjectMeta
  Spec : DeploymentSpec
  deriving DecidableEq, Repr

/-- Go `corev1.ServicePort`. -/
structure ServicePort where
  Name : String
  Port : Int
  Protocol : Protocol
  TargetPort : IntOrString
  deriving DecidableEq, Repr

/-- Go `corev1.ServiceType`. -/
inductive ServiceType where
  | ServiceTypeClusterIP
  | ServiceTypeNodePort
  | ServiceTypeLoadBalancer
  | ServiceTypeExternalName
  deriving DecidableEq, Repr

/-- Go `corev1.ServiceSpec`; the Go field `Type` is `ServiceType` here. -/
structure ServiceSpec where
  Selector : GoMap
  Ports : List ServicePort
  ServiceType : ServiceType
  deriving DecidableEq, Repr

/-- Go `corev1.Service`. -/
structure Service where
  ObjectMeta : ObjectMeta
  Spec : ServiceSpec
  deriving DecidableEq, Repr

/-- Go `networking/v1.PathType`. -/
inductive PathType where
  | PathTypeExact
  | PathTypePrefix
  | PathTypeImplementationSpecific
  deriving DecidableEq, Repr

/-- Go `networking/v1.ServiceBackendPort`. -/
structure ServiceBackendPort where
  Number : Int
  deriving DecidableEq, Repr

/-- Go `networking/v1.IngressServiceBackend`. -/
structure IngressServiceBackend where
  Name : String
  Port : ServiceBackendPort
  deriving DecidableEq, Repr

/-- Go `networking/v1.IngressBackend`; `Service` is a pointer. -/
structure IngressBackend where
  Service : Option IngressServiceBackend
  deriving DecidableEq, Repr

/-- Go `networking/v1.HTTPIngressPath`; `PathType` is a pointer. -/
structure HTTPIngressPath where
  Path : String
  PathType : Option PathType
  Backend : IngressBackend
  deriving DecidableEq, Repr

/-- Go `networking/v1.HTTPIngressRuleValue`. -/
structure HTTPIngressRuleValue where
  Paths : List HTTPIngressPath
  deriving DecidableEq, Repr

/-- Go `networking/v1.IngressRule`, with the embedded `IngressRuleValue`
flattened to its one field `HTTP` (a pointer). -/
structure IngressRule where
  Host : String
  HTTP : Option HTTPIngressRuleValue
  deriving DecidableEq, Repr

/-- Go `networking/v1.IngressTLS`. -/
structure IngressTLS where
  Hosts : List String
  SecretName : String
  deriving DecidableEq, Repr

/-- Go `networking/v1.IngressSpec`. -/
structure IngressSpec where
  Rules : List IngressRule
  TLS : List IngressTLS
  deriving DecidableEq, Repr

/-- Go `networking/v1.Ingress`. -/
structure Ingress where
  ObjectMeta : ObjectMeta
  Spec : IngressSpec
  deriving DecidableEq, Repr

/-! ## The control plane -/

/-- One call of the typed clientset, with the namespace it is scoped to. -/
inductive Call where
  | createDeployment (ns : String) (opts : Deployment)
  | createService (ns : String) (opts : Service)
  | createIngress (ns : String) (opts : Ingress)
  | listDeployments (ns : String) (labelSelector : String)
  | listIngresses (ns : String) (labelSelector : String)
  | listServices (ns : String) (labelSelector : String)
  | deleteDeployment (ns : String) (name : String)
  | deleteIngress (ns : String) (name : String)
  | deleteService (ns : String) (name : String)
  deriving DecidableEq, Repr

/-- Whether the call is a `Create`. -/
def Call.isCreate : Call → Bool
  | .createDeployment _ _ | .createService _ _ | .createIngress _ _ => true
  | _ => false

/-- Whether the call is a `List`. -/
def Call.isList : Call → Bool
  | .listDeployments _ _ | .listIngresses _ _ | .listServices _ _ => true
  | _ => false

/-- Whether the call is a `Delete`. -/
def Call.isDelete : Call → Bool
  | .deleteDeployment _ _ | .deleteIngress _ _ | .deleteService _ _ => true
  | _ => false

/-- The clientset `K8sClient.Client` over a cluster state `σ`: each operation
takes the namespace, its argument and the cluster state, and returns the
result (`Except` for `(object, error)`, `Option` for a bare `error`) with the
new cluster state. -/
structure Clientset (σ : Type) where
  createDeployment : String → Deployment → σ → Except String Deployment × σ
  createService : String → Service → σ → Except String Service × σ
  createIngress : String → Ingress → σ → Except String Ingress × σ
  listDeployments : String → String → σ → Except String (List Deployment) × σ
  listIngresses : String → String → σ → Except String (List Ingress) × σ
  listServices : String → String → σ → Except String (List Service) × σ
  deleteDeployment : String → String → σ → Option String × σ
  deleteIngress : String → String → σ → Option String × σ
  deleteService : String → String → σ → Option String × σ

/-- Go `K8sClientStruct`, the global `K8sClient`. -/
structure K8sClientStruct (σ : Type) where
  Namespace : String
  Client : Clientset σ

/-- The cluster state together with the log of the calls issued so far. -/
structure World (σ : Type) where
  cluster : σ
  calls : List Call

variable {σ : Type}

/-! ## `services.go` -/

/-- Go `CreateIngress`: the pair `(*v1.Ingress, error)`. -/
def CreateIngress (K : K8sClientStruct σ) (opts : Ingress) (w : World σ) :
    (Option Ingress × Option String) × World σ :=
  let r := K.Client.createIngress K.Namespace opts w.cluster
  let w1 : World σ := ⟨r.2, w.calls ++ [Call.createIngress K.Namespace opts]⟩
  match r.1 with
  | .error err => ((none, some err), w1)
  | .ok ingress => ((some ingress, none), w1)

/-- Go `CreateService`: the pair `(*corev1.Service, error)`. -/
def CreateService (K : K8sClientStruct σ) (opts : Service) (w : World σ) :
    (Option Service × Option String) × World σ :=
  let r := K.Client.createService K.Namespace opts w.cluster
  let w1 : World σ := ⟨r.2, w.calls ++ [Call.createService K.Namespace opts]⟩
  match r.1 with
  | .error err => ((none, some err), w1)
  | .ok serv => ((some serv, none), w1)

/-- Go `CreateDeployment`: the pair `(*appsv1.Deployment, error)`. -/
def CreateDeployment (K : K8sClientStruct σ) (opts : Deployment) (w : World σ) :
    (Option Deployment × Option String) × World σ :=
  let r := K.Client.createDeployment K.Namespace opts w.cluster
  let w1 : World σ := ⟨r.2, w.calls ++ [Call.createDeployment K.Namespace opts]⟩
  match r.1 with
  | .error err => ((none, some err), w1)
  | .ok dep => ((some dep, none), w1)

/-- Go `FindDeployment`: list by the selector `app=<name>`, first item. -/
def FindDeployment (K : K8sClientStruct σ) (name : String) (w : World σ) :
    (Option Deployment × Option String) × World σ :=
  let r := K.Client.listDeployments K.Namespace ("app=" ++ name) w.cluster
  let w1 : World σ := ⟨r.2, w.calls ++ [Call.listDeployments K.Namespace ("app=" ++ name)]⟩
  match r.1 with
  | .error err => ((none, some err), w1)
  | .ok items =>
    match items with
    | [] => ((none, some "Deployment not found"), w1)
    | item :: _ => ((some item, none), w1)

/-- Go `DeleteDeploymentParams`. -/
structure DeleteDeploymentParams where
  DeploymentName : String

/-- Go `DeleteDeployment`. -/
def DeleteDeployment (K : K8sClientStruct σ) (params : DeleteDeploymentParams) (w : World σ) :
    Option String × World σ :=
  let r := K.Client.deleteDeployment K.Namespace params.DeploymentName w.cluster
  let w1 : World σ := ⟨r.2, w.calls ++ [Call.deleteDeployment K.Namespace params.DeploymentName]⟩
  match r.1 with
  | some err => (some err, w1)
  | none => (none, w1)

/-- Go `DeleteIngressParams`. -/
structure DeleteIngressParams where
  IngressName : String

/-- Go `FindIngress`: list by the selector `app=<name>`, first item. -/
def FindIngress (K : K8sClientStruct σ) (name : String) (w : World σ) :
    (Option Ingress × Option String) × World σ :=
  let r := K.Client.listIngresses K.Namespace ("app=" ++ name) w.cluster
  let w1 : World σ := ⟨r.2, w.calls ++ [Call.listIngresses K.Namespace ("app=" ++ name)]⟩
  match r.1 with
  | .error err => ((none, some err), w1)
  | .ok items =>
    match items with
    | [] => ((none, some "ingress not found"), w1)
    | item :: _ => ((some item, none), w1)

/-- Go `DeleteIngress`. -/
def DeleteIngress (K : K8sClientStruct σ) (params : DeleteIngressParams) (w : World σ) :
    Option String × World σ :=
  let r := K.Client.deleteIngress K.Namespace params.IngressName w.cluster
  let w1 : World σ := ⟨r.2, w.calls ++ [Call.deleteIngress K.Namespace params.IngressName]⟩
  match r.1 with
  | some err => (some err, w1)
  | none => (none, w1)

/-- Go `FindService`: list by the selector `app=<name>`, first item. -/
def FindService (K : K8sClientStruct σ) (name : String) (w : World σ) :
    (Option Service × Option String) × World σ :=
  let r := K.Client.listServices K.Namespace ("app=" ++ name) w.cluster
  let w1 : World σ := ⟨r.2, w.calls ++ [Call.listServices K.Namespace ("app=" ++ name)]⟩
  match r.1 with
  | .error err => ((none, some err), w1)
  | .ok items =>
    match items with
    | [] => ((none, some "Service not found"), w1)
    | item :: _ => ((some item, none), w1)

/-- Go `DeleteServiceParams`. -/
structure DeleteServiceParams where
  ServiceName : String

/-- Go `DeleteService`. -/
def DeleteService (K : K8sClientStruct σ) (params : DeleteServiceParams) (w : World σ) :
    Option String × World σ :=
  let r := K.Client.deleteService K.Namespace params.ServiceName w.cluster
  let w1 : World σ := ⟨r.2, w.calls ++ [Call.deleteService K.Namespace params.ServiceName]⟩
  match r.1 with
  | some err => (some err, w1)
  | none => (none, w1)

/-! ## `handlers.go` -/

/-- The request body struct of both handlers. -/
structure Body where
  DomainName : String
  WebsiteID : String
  deriving DecidableEq, Repr

/-- An HTTP request, by what `json.NewDecoder(r.Body).Decode(&body)` makes of
it: the decoding error or the decoded body. -/
abbrev Request := Except String Body

/-- What a handler does to the `http.ResponseWriter`: the status it writes
with the body text, or a Go panic before anything is written. -/
inductive Outcome where
  | response (status : Nat) (text : String)
  | panicked
  deriving DecidableEq, Repr

/-- Go `http.StatusBadRequest`. -/
def StatusBadRequest : Nat := 400

/-- Go `http.StatusInternalServerError`. -/
def StatusInternalServerError : Nat := 500

/-- Go `http.StatusNoContent`. -/
def StatusNoContent : Nat := 204

/-- Go `http.Error(w, msg, code)`: the status with the message and a newline. -/
def httpError (msg : String) (code : Nat) : Outcome :=
  .response code (msg ++ "\n")

/-- Go `w.WriteHeader(code)` followed by `return`. -/
def writeHeader (code : Nat) : Outcome :=
  .response code ""

/-- The status code of an outcome, `none` for a panic. -/
def Outcome.status : Outcome → Option Nat
  | .response status _ => some status
  | .panicked => none

/-- The local `podConfig` of `Post` (lines 34-78). Here and below `ns` is
`K8sClient.Namespace`, `uuid n` the `n`-th `uuid.New().String()` of the
handler, `typeName` the local of line 30 and `body` the decoded body. -/
def podConfig (ns : String) (uuid : Nat → String) (typeName : String) (body : Body) : Pod :=
  let f := false
  { ObjectMeta :=
      { Labels := [("app", typeName), ("website-id", body.WebsiteID)]
        Namespace := ns
        GenerateName := "pod-"
        UID := uuid 0 }
    Spec :=
      { Containers :=
          [{ Name := "container-0"
             Image := "ghcr.io/tyrelchambers/reddex-custom-website:latest"
             Ports := [{ Name := "port-0", ContainerPort := 8000, Protocol := .ProtocolTCP }]
             EnvFrom :=
               [{ SecretRef := some
                    { Optional := some f
                      LocalObjectReference := { Name := "reddex-custom-secrets" } } }]
             ImagePullPolicy := .PullAlways
             SecurityContext := some
               { AllowPrivilegeEscalation := some f
                 Privileged := some f
                 ReadOnlyRootFilesystem := some f
                 RunAsNonRoot := some f } }]
        ImagePullSecrets := [{ Name := "ghrc" }] } }

/-- The local `deployParams` of `Post` (lines 82-123). -/
def deployParams (ns : String) (uuid : Nat → String) (typeName : String) (body : Body) :
    Deployment :=
  { TypeMeta := { Kind := "Deployment", APIVersion := "apps/v1" }
    ObjectMeta :=
      { Name := typeName ++ "-deploy"
        Labels :=
          [("app", typeName),
           ("website-id", body.WebsiteID),
           ("workload.user.cattle.io/workloadselector",
             "apps.deployment-dynamic-sites-" ++ typeName)]
        Namespace := ns
        UID := uuid 1 }
    Spec :=
      { Selector := some
          { MatchLabels :=
              [("workload.user.cattle.io/workloadselector",
                 "apps.deployment-dynamic-sites-" ++ typeName)] }
        Strategy :=
          { StrategyType := .RollingUpdateDeploymentStrategyType
            RollingUpdate := some
              { MaxUnavailable := some (.String "25%")
                MaxSurge := some (.String "25%") } }
        Template :=
          { ObjectMeta :=
              { Labels :=
                  [("app", typeName),
                   ("website-id", body.WebsiteID),
                   ("workload.user.cattle.io/workloadselector",
                     "apps.deployment-dynamic-sites-" ++ typeName)] }
            Spec := (podConfig ns uuid typeName body).Spec } } }

/-- The local `serviceParams` of `Post` (lines 133-161); `d` is the Deployment
returned by `CreateDeployment`. -/
def serviceParams (ns : String) (uuid : Nat → String) (typeName : String) (body : Body)
    (d : Deployment) : Service :=
  { ObjectMeta :=
      { GenerateName := "service-"
        Labels := [("websiteId", body.WebsiteID), ("app", typeName)]
        Namespace := ns
        Annotations :=
          [("workload.user.cattle.io/workloadselector",
             d.ObjectMeta.Annotations.index "workload.user.cattle.io/workloadselector")]
        UID := uuid 2 }
    Spec :=
      { Selector := [("app", typeName), ("website-id", body.WebsiteID)]
        Ports :=
          [{ Name := typeName ++ "-port"
             Port := 8000
             Protocol := .ProtocolTCP
             TargetPort := .Int 8000 }]
        ServiceType := .ServiceTypeClusterIP } }

/-- The local `ingressParams` of `Post` (lines 171-212); `s` is the Service
returned by `CreateService`. -/
def ingressParams (ns : String) (uuid : Nat → String) (typeName : String) (body : Body)
    (s : Service) : Ingress :=
  let pathType := PathType.PathTypePrefix
  { ObjectMeta :=
      { Labels := [("app", typeName), ("website-id", body.WebsiteID)]
        GenerateName := "ingress-"
        Annotations := [("cert-manager.io/cluster-issuer", "letsencrypt-prod")]
        Namespace := ns
        UID := uuid 3 }
    Spec :=
      { Rules :=
          [{ Host := body.DomainName
             HTTP := some
               { Paths :=
                   [{ Path := "/"
                      PathType := some pathType
                      Backend :=
                        { Service := some
                            { Name := s.ObjectMeta.Name
                              Port := { Number := 8000 } } } }] } }]
        TLS :=
          [{ Hosts := [body.DomainName]
             SecretName := "letsencrypt-" ++ body.DomainName }] } }

/-- Go `Post`. The locals `podConfig` and `pathType` are built inside
`deployParams` and `ingressParams`, the only places that read them. A failed
index `[0]` and a dereference of a nil pointer panic. -/
def Post (K : K8sClientStruct σ) (uuid : Nat → String) (r : Request) (w : World σ) :
    Outcome × World σ :=
  match r with
  | .error err => (httpError err StatusBadRequest, w)
  | .ok body =>
    match (stringsSplit body.DomainName '.')[0]? with
    | none => (.panicked, w)
    | some typeName =>
      let deployParams := deployParams K.Namespace uuid typeName body
      let rd := CreateDeployment K deployParams w
      match rd.1.2 with
      | some _ => (writeHeader StatusInternalServerError, rd.2)
      | none =>
        match rd.1.1 with
        | none => (.panicked, rd.2)
        | some d =>
          let serviceParams := serviceParams K.Namespace uuid typeName body d
          let rs := CreateService K serviceParams rd.2
          match rs.1.2 with
          | some _ => (writeHeader StatusInternalServerError, rs.2)
          | none =>
            match rs.1.1 with
            | none => (.panicked, rs.2)
            | some s =>
              let ingressParams := ingressParams K.Namespace uuid typeName body s
              let ri := CreateIngress K ingressParams rs.2
              match ri.1.2 with
              | some _ => (writeHeader StatusInternalServerError, ri.2)
              | none => (writeHeader StatusNoContent, ri.2)

/-- Lines 241-259 of `Delete`: look the Deployment up, delete it when found.
Returns the flag `errored` and the world. -/
def deleteDeploymentStep (K : K8sClientStruct σ) (typeName : String) (errored : Bool)
    (w : World σ) : Bool × World σ :=
  let rf := FindDeployment K typeName w
  let errored := if rf.1.2.isSome then true else errored
  match rf.1.1 with
  | some fDep =>
    let rdel := DeleteDeployment K { DeploymentName := fDep.ObjectMeta.Name } rf.2
    (if rdel.1.isSome then true else errored, rdel.2)
  | none => (errored, rf.2)

/-- Lines 261-280 of `Delete`: look the Ingress up, delete it when found. -/
def deleteIngressStep (K : K8sClientStruct σ) (typeName : String) (errored : Bool)
    (w : World σ) : Bool × World σ :=
  let rf := FindIngress K typeName w
  let errored := if rf.1.2.isSome then true else errored
  match rf.1.1 with
  | some fIngress =>
    let rdel := DeleteIngress K { IngressName := fIngress.ObjectMeta.Name } rf.2
    (if rdel.1.isSome then true else errored, rdel.2)
  | none => (errored, rf.2)

/-- Lines 282-298 of `Delete`: look the Service up, delete it when found. -/
def deleteServiceStep (K : K8sClientStruct σ) (typeName : String) (errored : Bool)
    (w : World σ) : Bool × World σ :=
  let rf := FindService K typeName w
  let errored := if rf.1.2.isSome then true else errored
  match rf.1.1 with
  | some fService =>
    let rdel := DeleteService K { ServiceName := fService.ObjectMeta.Name } rf.2
    (if rdel.1.isSome then true else errored, rdel.2)
  | none => (errored, rf.2)

/-- Go `Delete`: the three blocks in source order (Deployment, Ingress,
Service), then the status from the flag `errored`. -/
def Delete (K : K8sClientStruct σ) (r : Request) (w : World σ) : Outcome × World σ :=
  let errored := false
  match r with
  | .error err => (httpError err StatusBadRequest, w)
  | .ok body =>
    match (stringsSplit body.DomainName '.')[0]? with
    | none => (.panicked, w)
    | some typeName =>
      let r1 := deleteDeploymentStep K typeName errored w
      let r2 := deleteIngressStep K typeName r1.1 r1.2
      let r3 := deleteServiceStep K typeName r2.1 r2.2
      if r3.1 then (writeHeader StatusInternalServerError, r3.2)
      else (writeHeader StatusNoContent, r3.2)

/-- The calls issued between the world `w` and the later world `w1`. -/
def issued (w w1 : World σ) : List Call :=
  w1.calls.drop w.calls.length

/-- The backends of all the paths of all the rules of an Ingress. -/
def Ingress.backends (i : Ingress) : List IngressServiceBackend :=
  i.Spec.Rules.flatMap fun rule =>
    match rule.HTTP with
    | none => []
    | some http => http.Paths.filterMap fun path => path.Backend.Service

/-- The label selector of one equality requirement, `key=value`. -/
def equalitySelector (key value : String) : String :=
  key ++ "=" ++ value

/-- A label set satisfies the equality requirement `key=value` when it has the
key with that value. -/
def GoMap.satisfies (labels : GoMap) (key value : String) : Prop :=
  labels.lookup key = some value

/-- The three resource kinds of a site. -/
inductive Kind where
  | Deployment
  | Service
  | Ingress
  deriving DecidableEq, Repr

/-- The resource kind a call is about. -/
def Call.kind : Call → Kind
  | .createDeployment _ _ | .listDeployments _ _ | .deleteDeployment _ _ => .Deployment
  | .createService _ _ | .listServices _ _ | .deleteService _ _ => .Service
  | .createIngress _ _ | .listIngresses _ _ | .deleteIngress _ _ => .Ingress

/-- The labels of the object a create call submits; empty for other calls. -/
def Call.labels : Call → GoMap
  | .createDeployment _ opts => opts.ObjectMeta.Labels
  | .createService _ opts => opts.ObjectMeta.Labels
  | .createIngress _ opts => opts.ObjectMeta.Labels
  | _ => []

/-! ## Sample control planes and requests -/

/-- A control plane without state that answers from a script. -/
def scripted (createDep : Deployment → Except String Deployment)
    (createSvc : Service → Except String Service)
    (createIng : Ingress → Except String Ingress)
    (deps : Except String (List Deployment))
    (ings : Except String (List Ingress))
    (svcs : Except String (List Service))
    (del : String → Option String) : K8sClientStruct Unit :=
  { Namespace := "dynamic-sites"
    Client :=
      { createDeployment := fun _ opts u => (createDep opts, u)
        createService := fun _ opts u => (createSvc opts, u)
        createIngress := fun _ opts u => (createIng opts, u)
        listDeployments := fun _ _ u => (deps, u)
        listIngresses := fun _ _ u => (ings, u)
        listServices := fun _ _ u => (svcs, u)
        deleteDeployment := fun _ name u => (del name, u)
        deleteIngress := fun _ name u => (del name, u)
        deleteService := fun _ name u => (del name, u) } }

/-- The stored Deployment: the submitted object with the platform annotation. -/
def storedDeployment (opts : Deployment) : Deployment :=
  { opts with
    ObjectMeta :=
      { opts.ObjectMeta with
        Annotations := [("workload.user.cattle.io/workloadselector", "token-1")] } }

/-- The stored Service: the submitted object under a generated name. -/
def storedService (opts : Service) : Service :=
  { opts with
    ObjectMeta := { opts.ObjectMeta with Name := opts.ObjectMeta.GenerateName ++ "x7k2p" } }

/-- A control plane that stores everything and holds nothing under any selector. -/
def acceptingCluster : K8sClientStruct Unit :=
  scripted (fun o => .ok (storedDeployment o)) (fun o => .ok (storedService o))
    (fun o => .ok o) (.ok []) (.ok []) (.ok []) (fun _ => none)

/-- A control plane that rejects every Service. -/
def serviceRejectingCluster : K8sClientStruct Unit :=
  scripted (fun o => .ok (storedDeployment o)) (fun _ => .error "quota exceeded")
    (fun o => .ok o) (.ok []) (.ok []) (.ok []) (fun _ => none)

/-- The request body for `foo.example.com` and site `S1`. -/
def sampleBody : Body :=
  { DomainName := "foo.example.com", WebsiteID := "S1" }

/-- A fixed supply of identifiers. -/
def sampleUUID : Nat → String
  | 0 => "u0"
  | 1 => "u1"
  | 2 => "u2"
  | _ => "u3"

/-- The world before the request: no call issued yet. -/
def freshWorld : World Unit :=
  { cluster := (), calls := [] }

/-- A stored Ingress named `name` with the label `app=foo`. -/
def sampleIngress (name : String) : Ingress :=
  { ObjectMeta := { Name := name, Labels := [("app", "foo")] }
    Spec := { Rules := [], TLS := [] } }

/-- A stored Service named `name` with the label `app=foo`. -/
def sampleService (name : String) : Service :=
  { ObjectMeta := { Name := name, Labels := [("app", "foo")] }
    Spec := { Selector := [], Ports := [], ServiceType := .ServiceTypeClusterIP } }

/-- A control plane whose Deployment lookup fails while two Ingresses and one
Service are found and every delete succeeds. -/
def deploymentLookupFailingCluster : K8sClientStruct Unit :=
  scripted (fun o => .ok o) (fun o => .ok o) (fun o => .ok o)
    (.error "connection refused")
    (.ok [sampleIngress "ingress-a1", sampleIngress "ingress-b2"])
    (.ok [sampleService "service-c3"])
    (fun _ => none)

/-! ## Splitting at the first dot -/

theorem indexByte_none_iff (s : List Char) (c : Char) :
    indexByte s c = none ↔ c ∉ s := by
  induction s with
  | nil => simp [indexByte]
  | cons x xs ih =>
    by_cases h : x = c
    · simp [indexByte, h]
    · simp [indexByte, h, ih, Ne.symm h]

theorem indexByte_some_split (s : List Char) (c : Char) (m : Nat)
    (h : indexByte s c = some m) :
    s = s.take m ++ c :: s.drop (m + 1) ∧ c ∉ s.take m := by
  induction s generalizing m with
  | nil => simp [indexByte] at h
  | cons x xs ih =>
    by_cases hx : x = c
    · simp [indexByte, hx] at h
      subst h
      simp [hx]
    · cases hi : indexByte xs c with
      | none => simp [indexByte, hx, hi] at h
      | some m1 =>
        simp [indexByte, hx, hi] at h
        subst h
        obtain ⟨h1, h2⟩ := ih m1 hi
        refine ⟨?_, ?_⟩
        · simp only [List.take_succ_cons, List.drop_succ_cons, List.cons_append]
          rw [← h1]
        · simp only [List.take_succ_cons, List.mem_cons, not_or]
          exact ⟨Ne.symm hx, h2⟩

theorem countByte_pos_of_indexByte (s : List Char) (c : Char) (m : Nat)
    (h : indexByte s c = some m) : ∃ k, countByte s c = k + 1 := by
  induction s generalizing m with
  | nil => simp [indexByte] at h
  | cons x xs ih =>
    by_cases hx : x = c
    · exact ⟨countByte xs c, by simp [countByte, hx, Nat.add_comm]⟩
    · cases hi : indexByte xs c with
      | none => simp [indexByte, hx, hi] at h
      | some m1 =>
        obtain ⟨k, hk⟩ := ih m1 hi
        exact ⟨k, by simp [countByte, hx, hk]⟩

/-- The first piece of the split: the whole string when there is no separator,
the part before the first separator otherwise, as soon as the loop may run
once when there is a separator. -/
theorem genSplitLoop_head (sep : Char) (s : List Char) (n : Nat)
    (hn : sep ∈ s → 0 < n) :
    ∃ first rest, genSplitLoop sep n s = first :: rest ∧
      ((sep ∉ s ∧ first = s) ∨
        (∃ tail, s = first ++ sep :: tail ∧ sep ∉ first)) := by
  cases h : indexByte s sep with
  | none =>
    have hno := (indexByte_none_iff s sep).1 h
    refine ⟨s, [], ?_, Or.inl ⟨hno, rfl⟩⟩
    cases n with
    | zero => simp [genSplitLoop]
    | succ k => simp [genSplitLoop, h]
  | some m =>
    obtain ⟨h1, h2⟩ := indexByte_some_split s sep m h
    have hmem : sep ∈ s := by
      rw [h1]
      simp
    obtain ⟨k, rfl⟩ : ∃ k, n = k + 1 := ⟨n - 1, by have := hn hmem; omega⟩
    refine ⟨s.take m, genSplitLoop sep k (s.drop (m + 1)), ?_, Or.inr ⟨s.drop (m + 1), h1, h2⟩⟩
    simp [genSplitLoop, h]

/-- A string with the separator in it has a positive count and a positive
length in bytes, so the loop of `genSplit` may run. -/
theorem genSplit_bound_pos (s : String) (sep : Char) (hmem : sep ∈ s.data) :
    0 < (if countByte s.data sep + 1 > s.utf8ByteSize + 1 then s.utf8ByteSize + 1
      else countByte s.data sep + 1) - 1 := by
  obtain ⟨m, hm⟩ : ∃ m, indexByte s.data sep = some m := by
    cases h : indexByte s.data sep with
    | none => exact absurd hmem ((indexByte_none_iff s.data sep).1 h)
    | some m => exact ⟨m, rfl⟩
  obtain ⟨k, hk⟩ := countByte_pos_of_indexByte s.data sep m hm
  have hlen : 0 < s.utf8ByteSize := by
    cases s with
    | mk l =>
      cases l with
      | nil => simp at hmem
      | cons c cs =>
        simp only [String.utf8ByteSize_mk, String.utf8Len_cons]
        have := Char.utf8Size_pos c
        omega
  split <;> omega

/-- The index `[0]` of `strings.Split(s, ".")` is in range, and the element is
the whole of `s` or the part of `s` before its first separator. -/
theorem stringsSplit_zero (s : String) (sep : Char) :
    ∃ t, (stringsSplit s sep)[0]? = some t ∧
      ((sep ∉ s.data ∧ t = s) ∨
        (∃ tail, s.data = t.data ++ sep :: tail ∧ sep ∉ t.data)) := by
  obtain ⟨first, rest, h, hc⟩ := genSplitLoop_head sep s.data _ (genSplit_bound_pos s sep)
  refine ⟨String.mk first, ?_, ?_⟩
  · simp only [stringsSplit, h]
    simp
  · rcases hc with ⟨h1, h2⟩ | ⟨tail, h1, h2⟩
    · left
      refine ⟨h1, ?_⟩
      rw [h2]
    · right
      exact ⟨tail, h1, h2⟩

/-! ## The runs of `Post` -/

theorem issued_append (w : World σ) (c : σ) (l : List Call) :
    issued w ⟨c, w.calls ++ l⟩ = l := by
  simp [issued]

/-- The run of `Post` when the Deployment is rejected. -/
theorem Post_deployment_rejected (K : K8sClientStruct σ) (uuid : Nat → String) (body : Body)
    (w : World σ) (typeName : String) (e : String) (c1 : σ)
    (hT : (stringsSplit body.DomainName '.')[0]? = some typeName)
    (hd : K.Client.createDeployment K.Namespace (deployParams K.Namespace uuid typeName body)
      w.cluster = (.error e, c1)) :
    Post K uuid (.ok body) w =
      (writeHeader StatusInternalServerError,
        ⟨c1, w.calls ++ [Call.createDeployment K.Namespace
          (deployParams K.Namespace uuid typeName body)]⟩) := by
  simp [Post, hT, CreateDeployment, hd]

/-- The run of `Post` when the Deployment is stored and the Service rejected. -/
theorem Post_service_rejected (K : K8sClientStruct σ) (uuid : Nat → String) (body : Body)
    (w : World σ) (typeName : String) (d : Deployment) (e : String) (c1 c2 : σ)
    (hT : (stringsSplit body.DomainName '.')[0]? = some typeName)
    (hd : K.Client.createDeployment K.Namespace (deployParams K.Namespace uuid typeName body)
      w.cluster = (.ok d, c1))
    (hs : K.Client.createService K.Namespace (serviceParams K.Namespace uuid typeName body d)
      c1 = (.error e, c2)) :
    Post K uuid (.ok body) w =
      (writeHeader StatusInternalServerError,
        ⟨c2, w.calls ++ [Call.createDeployment K.Namespace
            (deployParams K.Namespace uuid typeName body),
          Call.createService K.Namespace (serviceParams K.Namespace uuid typeName body d)]⟩) := by
  simp [Post, hT, CreateDeployment, hd, CreateService, hs]

/-- The run of `Post` when the Deployment and the Service are stored. -/
theorem Post_service_stored (K : K8sClientStruct σ) (uuid : Nat → String) (body : Body)
    (w : World σ) (typeName : String) (d : Deployment) (s : Service) (c1 c2 : σ)
    (hT : (stringsSplit body.DomainName '.')[0]? = some typeName)
    (hd : K.Client.createDeployment K.Namespace (deployParams K.Namespace uuid typeName body)
      w.cluster = (.ok d, c1))
    (hs : K.Client.createService K.Namespace (serviceParams K.Namespace uuid typeName body d)
      c1 = (.ok s, c2)) :
    Post K uuid (.ok body) w =
      ((match (K.Client.createIngress K.Namespace
            (ingressParams K.Namespace uuid typeName body s) c2).1 with
        | .error _ => writeHeader StatusInternalServerError
        | .ok _ => writeHeader StatusNoContent),
        ⟨(K.Client.createIngress K.Namespace
            (ingressParams K.Namespace uuid typeName body s) c2).2,
          w.calls ++ [Call.createDeployment K.Namespace
            (deployParams K.Namespace uuid typeName body),
          Call.createService K.Namespace (serviceParams K.Namespace uuid typeName body d),
          Call.createIngress K.Namespace (ingressParams K.Namespace uuid typeName body s)]⟩) := by
  simp only [Post, hT, CreateDeployment, hd, CreateService, hs, CreateIngress]
  cases (K.Client.createIngress K.Namespace
    (ingressParams K.Namespace uuid typeName body s) c2).1 <;> simp

/-! ## The blocks of `Delete` -/

/-- The calls of the Deployment block of `Delete`: the lookup, then at most deletes. -/
theorem deleteDeploymentStep_calls (K : K8sClientStruct σ) (typeName : String) (errored : Bool)
    (w : World σ) :
    ∃ dels, (deleteDeploymentStep K typeName errored w).2.calls =
        w.calls ++ Call.listDeployments K.Namespace ("app=" ++ typeName) :: dels ∧
      dels.filter Call.isList = [] ∧ dels.filter Call.isCreate = [] := by
  rcases hl : K.Client.listDeployments K.Namespace ("app=" ++ typeName) w.cluster with ⟨r, c1⟩
  rcases r with e | items
  · exact ⟨[], by simp [deleteDeploymentStep, FindDeployment, hl]⟩
  · cases items with
    | nil => exact ⟨[], by simp [deleteDeploymentStep, FindDeployment, hl]⟩
    | cons x xs =>
      refine ⟨[Call.deleteDeployment K.Namespace x.ObjectMeta.Name], ?_, ?_, ?_⟩
      · rcases hdel : K.Client.deleteDeployment K.Namespace x.ObjectMeta.Name c1 with ⟨r2, c2⟩
        cases r2 <;> simp [deleteDeploymentStep, FindDeployment, hl, DeleteDeployment, hdel]
      · simp [Call.isList]
      · simp [Call.isCreate]

/-- The Deployment block of `Delete` when the lookup finds nothing. -/
theorem deleteDeploymentStep_empty (K : K8sClientStruct σ) (typeName : String) (errored : Bool)
    (w : World σ) (c1 : σ)
    (hl : K.Client.listDeployments K.Namespace ("app=" ++ typeName) w.cluster = (.ok [], c1)) :
    deleteDeploymentStep K typeName errored w =
      (true, ⟨c1, w.calls ++ [Call.listDeployments K.Namespace ("app=" ++ typeName)]⟩) := by
  simp [deleteDeploymentStep, FindDeployment, hl]

/-- The Deployment block of `Delete` when the lookup fails. -/
theorem deleteDeploymentStep_failed (K : K8sClientStruct σ) (typeName : String) (errored : Bool)
    (w : World σ) (e : String) (c1 : σ)
    (hl : K.Client.listDeployments K.Namespace ("app=" ++ typeName) w.cluster = (.error e, c1)) :
    deleteDeploymentStep K typeName errored w =
      (true, ⟨c1, w.calls ++ [Call.listDeployments K.Namespace ("app=" ++ typeName)]⟩) := by
  simp [deleteDeploymentStep, FindDeployment, hl]

/-- The Deployment block of `Delete` when the lookup finds items and the delete of
the first one succeeds. -/
theorem deleteDeploymentStep_deleted (K : K8sClientStruct σ) (typeName : String) (errored : Bool)
    (w : World σ) (x : Deployment) (xs : List Deployment) (c1 c2 : σ)
    (hl : K.Client.listDeployments K.Namespace ("app=" ++ typeName) w.cluster = (.ok (x :: xs), c1))
    (hdel : K.Client.deleteDeployment K.Namespace x.ObjectMeta.Name c1 = (none, c2)) :
    deleteDeploymentStep K typeName errored w =
      (errored, ⟨c2, w.calls ++ [Call.listDeployments K.Namespace ("app=" ++ typeName),
        Call.deleteDeployment K.Namespace x.ObjectMeta.Name]⟩) := by
  simp [deleteDeploymentStep, FindDeployment, hl, DeleteDeployment, hdel]

/-- The calls of the Ingress block of `Delete`: the lookup, then at most deletes. -/
theorem deleteIngressStep_calls (K : K8sClientStruct σ) (typeName : String) (errored : Bool)
    (w : World σ) :
    ∃ dels, (deleteIngressStep K typeName errored w).2.calls =
        w.calls ++ Call.listIngresses K.Namespace ("app=" ++ typeName) :: dels ∧
      dels.filter Call.isList = [] ∧ dels.filter Call.isCreate = [] := by
  rcases hl : K.Client.listIngresses K.Namespace ("app=" ++ typeName) w.cluster with ⟨r, c1⟩
  rcases r with e | items
  · exact ⟨[], by simp [deleteIngressStep, FindIngress, hl]⟩
  · cases items with
    | nil => exact ⟨[], by simp [deleteIngressStep, FindIngress, hl]⟩
    | cons x xs =>
      refine ⟨[Call.deleteIngress K.Namespace x.ObjectMeta.Name], ?_, ?_, ?_⟩
      · rcases hdel : K.Client.deleteIngress K.Namespace x.ObjectMeta.Name c1 with ⟨r2, c2⟩
        cases r2 <;> simp [deleteIngressStep, FindIngress, hl, DeleteIngress, hdel]
      · simp [Call.isList]
      · simp [Call.isCreate]

/-- The Ingress block of `Delete` when the lookup finds nothing. -/
theorem deleteIngressStep_empty (K : K8sClientStruct σ) (typeName : String) (errored : Bool)
    (w : World σ) (c1 : σ)
    (hl : K.Client.listIngresses K.Namespace ("app=" ++ typeName) w.cluster = (.ok [], c1)) :
    deleteIngressStep K typeName errored w =
      (true, ⟨c1, w.calls ++ [Call.listIngresses K.Namespace ("app=" ++ typeName)]⟩) := by
  simp [deleteIngressStep, FindIngress, hl]

/-- The Ingress block of `Delete` when the lookup fails. -/
theorem deleteIngressStep_failed (K : K8sClientStruct σ) (typeName : String) (errored : Bool)
    (w : World σ) (e : String) (c1 : σ)
    (hl : K.Client.listIngresses K.Namespace ("app=" ++ typeName) w.cluster = (.error e, c1)) :
    deleteIngressStep K typeName errored w =
      (true, ⟨c1, w.calls ++ [Call.listIngresses K.Namespace ("app=" ++ typeName)]⟩) := by
  simp [deleteIngressStep, FindIngress, hl]

/-- The Ingress block of `Delete` when the lookup finds items and the delete of
the first one succeeds. -/
theorem deleteIngressStep_deleted (K : K8sClientStruct σ) (typeName : String) (errored : Bool)
    (w : World σ) (x : Ingress) (xs : List Ingress) (c1 c2 : σ)
    (hl : K.Client.listIngresses K.Namespace ("app=" ++ typeName) w.cluster = (.ok (x :: xs), c1))
    (hdel : K.Client.deleteIngress K.Namespace x.ObjectMeta.Name c1 = (none, c2)) :
    deleteIngressStep K typeName errored w =
      (errored, ⟨c2, w.calls ++ [Call.listIngresses K.Namespace ("app=" ++ typeName),
        Call.deleteIngress K.Namespace x.ObjectMeta.Name]⟩) := by
  simp [deleteIngressStep, FindIngress, hl, DeleteIngress, hdel]

/-- The calls of the Service block of `Delete`: the lookup, then at most deletes. -/
theorem deleteServiceStep_calls (K : K8sClientStruct σ) (typeName : String) (errored : Bool)
    (w : World σ) :
    ∃ dels, (deleteServiceStep K typeName errored w).2.calls =
        w.calls ++ Call.listServices K.Namespace ("app=" ++ typeName) :: dels ∧
      dels.filter Call.isList = [] ∧ dels.filter Call.isCreate = [] := by
  rcases hl : K.Client.listServices K.Namespace ("app=" ++ typeName) w.cluster with ⟨r, c1⟩
  rcases r with e | items
  · exact ⟨[], by simp [deleteServiceStep, FindService, hl]⟩
  · cases items with
    | nil => exact ⟨[], by simp [deleteServiceStep, FindService, hl]⟩
    | cons x xs =>
      refine ⟨[Call.deleteService K.Namespace x.ObjectMeta.Name], ?_, ?_, ?_⟩
      · rcases hdel : K.Client.deleteService K.Namespace x.ObjectMeta.Name c1 with ⟨r2, c2⟩
        cases r2 <;> simp [deleteServiceStep, FindService, hl, DeleteService, hdel]
      · simp [Call.isList]
      · simp [Call.isCreate]

/-- The Service block of `Delete` when the lookup finds nothing. -/
theorem deleteServiceStep_empty (K : K8sClientStruct σ) (typeName : String) (errored : Bool)
    (w : World σ) (c1 : σ)
    (hl : K.Client.listServices K.Namespace ("app=" ++ typeName) w.cluster = (.ok [], c1)) :
    deleteServiceStep K typeName errored w =
      (true, ⟨c1, w.calls ++ [Call.listServices K.Namespace ("app=" ++ typeName)]⟩) := by
  simp [deleteServiceStep, FindService, hl]

/-- The Service block of `Delete` when the lookup fails. -/
theorem deleteServiceStep_failed (K : K8sClientStruct σ) (typeName : String) (errored : Bool)
    (w : World σ) (e : String) (c1 : σ)
    (hl : K.Client.listServices K.Namespace ("app=" ++ typeName) w.cluster = (.error e, c1)) :
    deleteServiceStep K typeName errored w =
      (true, ⟨c1, w.calls ++ [Call.listServices K.Namespace ("app=" ++ typeName)]⟩) := by
  simp [deleteServiceStep, FindService, hl]

/-- The Service block of `Delete` when the lookup finds items and the delete of
the first one succeeds. -/
theorem deleteServiceStep_deleted (K : K8sClientStruct σ) (typeName : String) (errored : Bool)
    (w : World σ) (x : Service) (xs : List Service) (c1 c2 : σ)
    (hl : K.Client.listServices K.Namespace ("app=" ++ typeName) w.cluster = (.ok (x :: xs), c1))
    (hdel : K.Client.deleteService K.Namespace x.ObjectMeta.Name c1 = (none, c2)) :
    deleteServiceStep K typeName errored w =
      (errored, ⟨c2, w.calls ++ [Call.listServices K.Namespace ("app=" ++ typeName),
        Call.deleteService K.Namespace x.ObjectMeta.Name]⟩) := by
  simp [deleteServiceStep, FindService, hl, DeleteService, hdel]

/-! ## What `Post` issues -/

/-- The first call of `Post` is the create of the Deployment it built. -/
theorem Post_issued_head (K : K8sClientStruct σ) (uuid : Nat → String) (body : Body)
    (w : World σ) (typeName : String)
    (hT : (stringsSplit body.DomainName '.')[0]? = some typeName) :
    (issued w (Post K uuid (.ok body) w).2).head? =
      some (Call.createDeployment K.Namespace (deployParams K.Namespace uuid typeName body)) := by
  rcases hd : K.Client.createDeployment K.Namespace (deployParams K.Namespace uuid typeName body)
    w.cluster with ⟨rd, c1⟩
  rcases rd with e | d
  · rw [Post_deployment_rejected K uuid body w typeName e c1 hT hd, issued_append]
    rfl
  · rcases hs : K.Client.createService K.Namespace (serviceParams K.Namespace uuid typeName body d)
      c1 with ⟨rs, c2⟩
    rcases rs with e | s
    · rw [Post_service_rejected K uuid body w typeName d e c1 c2 hT hd hs, issued_append]
      rfl
    · rw [Post_service_stored K uuid body w typeName d s c1 c2 hT hd hs, issued_append]
      rfl

/-- Every call of `Post` is the create of a spec it built: the Deployment, a
Service for some returned Deployment, or an Ingress for some returned Service. -/
theorem Post_issued_mem (K : K8sClientStruct σ) (uuid : Nat → String) (body : Body)
    (w : World σ) (typeName : String)
    (hT : (stringsSplit body.DomainName '.')[0]? = some typeName)
    (call : Call) (hc : call ∈ issued w (Post K uuid (.ok body) w).2) :
    call = Call.createDeployment K.Namespace (deployParams K.Namespace uuid typeName body) ∨
    (∃ d, call = Call.createService K.Namespace (serviceParams K.Namespace uuid typeName body d)) ∨
    (∃ s, call = Call.createIngress K.Namespace (ingressParams K.Namespace uuid typeName body s)) := by
  rcases hd : K.Client.createDeployment K.Namespace (deployParams K.Namespace uuid typeName body)
    w.cluster with ⟨rd, c1⟩
  rcases rd with e | d
  · rw [Post_deployment_rejected K uuid body w typeName e c1 hT hd, issued_append] at hc
    simp only [List.mem_singleton] at hc
    exact Or.inl hc
  · rcases hs : K.Client.createService K.Namespace (serviceParams K.Namespace uuid typeName body d)
      c1 with ⟨rs, c2⟩
    rcases rs with e | s
    · rw [Post_service_rejected K uuid body w typeName d e c1 c2 hT hd hs, issued_append] at hc
      simp only [List.mem_cons, List.mem_singleton, List.not_mem_nil, or_false] at hc
      rcases hc with h | h
      · exact Or.inl h
      · exact Or.inr (Or.inl ⟨d, h⟩)
    · rw [Post_service_stored K uuid body w typeName d s c1 c2 hT hd hs, issued_append] at hc
      simp only [List.mem_cons, List.mem_singleton, List.not_mem_nil, or_false] at hc
      rcases hc with h | h | h
      · exact Or.inl h
      · exact Or.inr (Or.inl ⟨d, h⟩)
      · exact Or.inr (Or.inr ⟨s, h⟩)

/-! ## The identity derived from the domain name -/

/-- C5: for every domain name the index `[0]` of `strings.Split(domainName, ".")`
succeeds, and the element `typeName` is the longest prefix of the domain name
without a dot: the part strictly before the first dot when there is one, the
whole string when there is none, the empty string when the name starts with a
dot. It is a function of the domain name alone. -/
theorem typeName_longest_dot_free_prefix (domainName : String) :
    ∃ typeName, (stringsSplit domainName '.')[0]? = some typeName ∧
      (∀ t, (stringsSplit domainName '.')[0]? = some t → t = typeName) ∧
      typeName.data <+: domainName.data ∧ '.' ∉ typeName.data ∧
      (∀ p : List Char, p <+: domainName.data → '.' ∉ p →
        p.length ≤ typeName.data.length) ∧
      ('.' ∈ domainName.data →
        ∃ tail, domainName.data = typeName.data ++ '.' :: tail) ∧
      ('.' ∉ domainName.data → typeName = domainName) ∧
      (domainName.data.head? = some '.' → typeName = "") := by
  obtain ⟨t, hT, hc⟩ := stringsSplit_zero domainName '.'
  refine ⟨t, hT, ?_, ?_⟩
  · intro t1 h1
    rw [hT] at h1
    exact (Option.some.inj h1).symm
  rcases hc with ⟨hno, rfl⟩ | ⟨tail, hsplit, hno⟩
  · refine ⟨List.prefix_refl _, hno, ?_, ?_, ?_, ?_⟩
    · intro p hp _
      exact hp.length_le
    · intro h
      exact absurd h hno
    · intro _
      rfl
    · intro h
      cases hd : t.data with
      | nil =>
        cases t
        simp only at hd
        subst hd
        rfl
      | cons x xs =>
        rw [hd] at h hno
        simp only [List.head?_cons, Option.some.injEq] at h
        subst h
        simp at hno
  · refine ⟨?_, hno, ?_, ?_, ?_, ?_⟩
    · rw [hsplit]
      exact List.prefix_append _ _
    · intro p hp hdot
      by_contra hlt
      have hlen : (t.data ++ ['.']).length ≤ p.length := by
        simp only [List.length_append, List.length_singleton]
        omega
      have hpre : t.data ++ ['.'] <+: domainName.data := by
        rw [hsplit]
        exact ⟨tail, by simp⟩
      have hsub : t.data ++ ['.'] <+: p := List.prefix_of_prefix_length_le hpre hp hlen
      exact hdot (hsub.subset (by simp))
    · intro _
      exact ⟨tail, hsplit⟩
    · intro h
      rw [hsplit] at h
      simp at h
    · intro h
      rw [hsplit] at h
      cases hd : t.data with
      | nil =>
        cases t
        simp only at hd
        subst hd
        rfl
      | cons x xs =>
        rw [hd] at h hno
        simp only [List.cons_append, List.head?_cons, Option.some.injEq] at h
        subst h
        simp at hno

/-- C5, at `foo.example.com`, `localhost` and `.example.com`: the identities
are `foo`, `localhost` and the empty string. -/
theorem typeName_longest_dot_free_prefix_witness :
    (stringsSplit "foo.example.com" '.')[0]? = some "foo" ∧
    (stringsSplit "localhost" '.')[0]? = some "localhost" ∧
    (stringsSplit ".example.com" '.')[0]? = some "" := by
  refine ⟨?_, ?_, ?_⟩
  · obtain ⟨t, hT, huniq, _⟩ := typeName_longest_dot_free_prefix "foo.example.com"
    rw [hT, huniq "foo" rfl]
  · obtain ⟨t, hT, _, _, _, _, _, hwhole, _⟩ := typeName_longest_dot_free_prefix "localhost"
    rw [hT, hwhole (by decide)]
  · obtain ⟨t, hT, _, _, _, _, _, _, hempty⟩ := typeName_longest_dot_free_prefix ".example.com"
    rw [hT, hempty rfl]

/-! ## Provisioning -/

/-- C3: for every request `Post` issues only creates, in the order Deployment,
Service, Ingress, and stops at the first that fails. When the Deployment create
fails it is the only call and the response is 500. When the Deployment create
succeeds and the Service create fails, exactly these two creates were issued
(no Ingress create, no delete) and the response is 500. The response is 204
exactly when all three creates succeed. -/
theorem Post_creates_in_order_and_stops (K : K8sClientStruct σ) (uuid : Nat → String)
    (body : Body) (w : World σ) :
    ∃ typeName, (stringsSplit body.DomainName '.')[0]? = some typeName ∧
      (∀ call ∈ issued w (Post K uuid (.ok body) w).2, call.isCreate = true) ∧
      (issued w (Post K uuid (.ok body) w).2).map Call.kind <+:
        [Kind.Deployment, Kind.Service, Kind.Ingress] ∧
      (∀ e c1,
        K.Client.createDeployment K.Namespace (deployParams K.Namespace uuid typeName body)
          w.cluster = (.error e, c1) →
        issued w (Post K uuid (.ok body) w).2 =
          [Call.createDeployment K.Namespace (deployParams K.Namespace uuid typeName body)] ∧
        (Post K uuid (.ok body) w).1 = writeHeader StatusInternalServerError) ∧
      (∀ d e c1 c2,
        K.Client.createDeployment K.Namespace (deployParams K.Namespace uuid typeName body)
          w.cluster = (.ok d, c1) →
        K.Client.createService K.Namespace (serviceParams K.Namespace uuid typeName body d)
          c1 = (.error e, c2) →
        issued w (Post K uuid (.ok body) w).2 =
          [Call.createDeployment K.Namespace (deployParams K.Namespace uuid typeName body),
           Call.createService K.Namespace (serviceParams K.Namespace uuid typeName body d)] ∧
        (Post K uuid (.ok body) w).1 = writeHeader StatusInternalServerError) ∧
      ((Post K uuid (.ok body) w).1 = writeHeader StatusNoContent ↔
        ∃ d s i c1 c2 c3,
          K.Client.createDeployment K.Namespace (deployParams K.Namespace uuid typeName body)
            w.cluster = (.ok d, c1) ∧
          K.Client.createService K.Namespace (serviceParams K.Namespace uuid typeName body d)
            c1 = (.ok s, c2) ∧
          K.Client.createIngress K.Namespace (ingressParams K.Namespace uuid typeName body s)
            c2 = (.ok i, c3)) := by
  obtain ⟨typeName, hT, _⟩ := stringsSplit_zero body.DomainName '.'
  refine ⟨typeName, hT, ?_, ?_, ?_, ?_, ?_⟩
  · intro call hc
    rcases Post_issued_mem K uuid body w typeName hT call hc with h | ⟨d, h⟩ | ⟨s, h⟩ <;>
      simp [h, Call.isCreate]
  · rcases hd : K.Client.createDeployment K.Namespace
      (deployParams K.Namespace uuid typeName body) w.cluster with ⟨rd, c1⟩
    rcases rd with e | d
    · rw [Post_deployment_rejected K uuid body w typeName e c1 hT hd, issued_append]
      exact ⟨[Kind.Service, Kind.Ingress], rfl⟩
    · rcases hs : K.Client.createService K.Namespace
        (serviceParams K.Namespace uuid typeName body d) c1 with ⟨rs, c2⟩
      rcases rs with e | s
      · rw [Post_service_rejected K uuid body w typeName d e c1 c2 hT hd hs, issued_append]
        exact ⟨[Kind.Ingress], rfl⟩
      · rw [Post_service_stored K uuid body w typeName d s c1 c2 hT hd hs, issued_append]
        exact ⟨[], rfl⟩
  · intro e c1 hd
    rw [Post_deployment_rejected K uuid body w typeName e c1 hT hd, issued_append]
    exact ⟨rfl, rfl⟩
  · intro d e c1 c2 hd hs
    rw [Post_service_rejected K uuid body w typeName d e c1 c2 hT hd hs, issued_append]
    exact ⟨rfl, rfl⟩
  · rcases hd : K.Client.createDeployment K.Namespace
      (deployParams K.Namespace uuid typeName body) w.cluster with ⟨rd, c1⟩
    rcases rd with e | d
    · rw [Post_deployment_rejected K uuid body w typeName e c1 hT hd]
      constructor
      · intro h
        simp [writeHeader, StatusInternalServerError, StatusNoContent] at h
      · rintro ⟨d, s, i, c1', c2, c3, h1, _, _⟩
        simp at h1
    · rcases hs : K.Client.createService K.Namespace
        (serviceParams K.Namespace uuid typeName body d) c1 with ⟨rs, c2⟩
      rcases rs with e | s
      · rw [Post_service_rejected K uuid body w typeName d e c1 c2 hT hd hs]
        constructor
        · intro h
          simp [writeHeader, StatusInternalServerError, StatusNoContent] at h
        · rintro ⟨d', s, i, c1', c2', c3, h1, h2, _⟩
          simp only [Prod.mk.injEq, Except.ok.injEq] at h1
          obtain ⟨rfl, rfl⟩ := h1
          rw [hs] at h2
          simp at h2
      · rw [Post_service_stored K uuid body w typeName d s c1 c2 hT hd hs]
        rcases hi : K.Client.createIngress K.Namespace
          (ingressParams K.Namespace uuid typeName body s) c2 with ⟨ri, c3⟩
        rcases ri with e | i
        · constructor
          · intro h
            simp [writeHeader, StatusInternalServerError, StatusNoContent] at h
          · rintro ⟨d', s', i, c1', c2', c3', h1, h2, h3⟩
            simp only [Prod.mk.injEq, Except.ok.injEq] at h1
            obtain ⟨rfl, rfl⟩ := h1
            rw [hs] at h2
            simp only [Prod.mk.injEq, Except.ok.injEq] at h2
            obtain ⟨rfl, rfl⟩ := h2
            rw [hi] at h3
            simp at h3
        · constructor
          · intro _
            exact ⟨d, s, i, c1, c2, c3, rfl, hs, hi⟩
          · intro _
            rfl

/-- C3, on a control plane that stores the Deployment and rejects the Service:
`Post` issues the Deployment create and the Service create and answers 500. -/
theorem Post_creates_in_order_and_stops_witness :
    ((issued freshWorld
        (Post serviceRejectingCluster sampleUUID (.ok sampleBody) freshWorld).2).map
          fun c => (c.isCreate, c.kind)) =
      [(true, Kind.Deployment), (true, Kind.Service)] ∧
    (Post serviceRejectingCluster sampleUUID (.ok sampleBody) freshWorld).1 =
      writeHeader StatusInternalServerError := by
  obtain ⟨t, hT, _, _, _, h, _⟩ :=
    Post_creates_in_order_and_stops serviceRejectingCluster sampleUUID sampleBody freshWorld
  have h0 : (stringsSplit sampleBody.DomainName '.')[0]? = some "foo" := rfl
  have ht : t = "foo" := Option.some.inj (hT.symm.trans h0)
  subst ht
  obtain ⟨h1, h2⟩ := h (storedDeployment
    (deployParams "dynamic-sites" sampleUUID "foo" sampleBody)) "quota exceeded" () () rfl rfl
  rw [h1]
  exact ⟨rfl, h2⟩

/-- C4: whenever the Deployment and the Service creates succeed, `Post` passes
to `CreateIngress` an Ingress whose only backend is the Service named by the
`Name` of the object that `CreateService` returned, on port 8000. -/
theorem Post_ingress_backend_is_returned_service (K : K8sClientStruct σ) (uuid : Nat → String)
    (body : Body) (w : World σ) (typeName : String) (d : Deployment) (s : Service) (c1 c2 : σ)
    (hT : (stringsSplit body.DomainName '.')[0]? = some typeName)
    (hd : K.Client.createDeployment K.Namespace (deployParams K.Namespace uuid typeName body)
      w.cluster = (.ok d, c1))
    (hs : K.Client.createService K.Namespace (serviceParams K.Namespace uuid typeName body d)
      c1 = (.ok s, c2)) :
    ∃ ingress, issued w (Post K uuid (.ok body) w).2 =
        [Call.createDeployment K.Namespace (deployParams K.Namespace uuid typeName body),
         Call.createService K.Namespace (serviceParams K.Namespace uuid typeName body d),
         Call.createIngress K.Namespace ingress] ∧
      ingress.backends = [{ Name := s.ObjectMeta.Name, Port := { Number := 8000 } }] := by
  refine ⟨ingressParams K.Namespace uuid typeName body s, ?_, ?_⟩
  · rw [Post_service_stored K uuid body w typeName d s c1 c2 hT hd hs, issued_append]
  · simp [Ingress.backends, ingressParams]

/-- C4, on a control plane that stores the Service under the generated name
`service-x7k2p`: the Ingress backend is `service-x7k2p`, port 8000. -/
theorem Post_ingress_backend_is_returned_service_witness :
    ∃ ingress, (issued freshWorld
        (Post acceptingCluster sampleUUID (.ok sampleBody) freshWorld).2)[2]? =
          some (Call.createIngress "dynamic-sites" ingress) ∧
      ingress.backends = [{ Name := "service-x7k2p", Port := { Number := 8000 } }] := by
  obtain ⟨ingress, h1, h2⟩ := Post_ingress_backend_is_returned_service acceptingCluster
    sampleUUID sampleBody freshWorld "foo"
    (storedDeployment (deployParams "dynamic-sites" sampleUUID "foo" sampleBody))
    (storedService (serviceParams "dynamic-sites" sampleUUID "foo" sampleBody
      (storedDeployment (deployParams "dynamic-sites" sampleUUID "foo" sampleBody))))
    () () rfl rfl rfl
  refine ⟨ingress, ?_, ?_⟩
  · rw [h1]
    rfl
  · rw [h2]
    rfl

/-! ## Deprovisioning -/

/-- The lookups among the calls of `Delete`: one per kind, in the order
Deployment, Ingress, Service, whatever the control plane answers. -/
theorem Delete_issued_lookups (K : K8sClientStruct σ) (body : Body) (w : World σ)
    (typeName : String) (hT : (stringsSplit body.DomainName '.')[0]? = some typeName) :
    (issued w (Delete K (.ok body) w).2).filter Call.isList =
      [Call.listDeployments K.Namespace ("app=" ++ typeName),
       Call.listIngresses K.Namespace ("app=" ++ typeName),
       Call.listServices K.Namespace ("app=" ++ typeName)] := by
  obtain ⟨d1, h1, f1, _⟩ := deleteDeploymentStep_calls K typeName false w
  obtain ⟨d2, h2, f2, _⟩ := deleteIngressStep_calls K typeName
    (deleteDeploymentStep K typeName false w).1 (deleteDeploymentStep K typeName false w).2
  obtain ⟨d3, h3, f3, _⟩ := deleteServiceStep_calls K typeName
    (deleteIngressStep K typeName (deleteDeploymentStep K typeName false w).1
      (deleteDeploymentStep K typeName false w).2).1
    (deleteIngressStep K typeName (deleteDeploymentStep K typeName false w).1
      (deleteDeploymentStep K typeName false w).2).2
  have hcalls : (Delete K (.ok body) w).2.calls =
      w.calls ++ (Call.listDeployments K.Namespace ("app=" ++ typeName) :: d1 ++
        (Call.listIngresses K.Namespace ("app=" ++ typeName) :: d2 ++
          Call.listServices K.Namespace ("app=" ++ typeName) :: d3)) := by
    have : (Delete K (.ok body) w).2 = (deleteServiceStep K typeName
        (deleteIngressStep K typeName (deleteDeploymentStep K typeName false w).1
          (deleteDeploymentStep K typeName false w).2).1
        (deleteIngressStep K typeName (deleteDeploymentStep K typeName false w).1
          (deleteDeploymentStep K typeName false w).2).2).2 := by
      simp only [Delete, hT]
      split <;> rfl
    rw [this, h3, h2, h1]
    simp
  simp only [issued, hcalls, List.drop_left]
  simp [List.filter_cons, Call.isList, f1, f2, f3]

/-- C1, counterexample: on a control plane where the three lookups succeed
with zero items, `Delete` answers 500, not 204. -/
theorem Delete_nothing_found_not_no_content :
    acceptingCluster.Client.listDeployments "dynamic-sites" "app=foo" () = (.ok [], ()) ∧
    acceptingCluster.Client.listIngresses "dynamic-sites" "app=foo" () = (.ok [], ()) ∧
    acceptingCluster.Client.listServices "dynamic-sites" "app=foo" () = (.ok [], ()) ∧
    (Delete acceptingCluster (.ok sampleBody) freshWorld).2.calls =
      [Call.listDeployments "dynamic-sites" "app=foo",
       Call.listIngresses "dynamic-sites" "app=foo",
       Call.listServices "dynamic-sites" "app=foo"] ∧
    (Delete acceptingCluster (.ok sampleBody) freshWorld).1 =
      writeHeader StatusInternalServerError ∧
    (Delete acceptingCluster (.ok sampleBody) freshWorld).1 ≠ writeHeader StatusNoContent := by
  refine ⟨rfl, rfl, rfl, rfl, rfl, ?_⟩
  decide

/-- C1, amended: when the three lookups succeed at the control plane and each
returns zero items, `Delete` issues the three lookups and no delete call, and
responds with a server error (500): `FindDeployment`, `FindIngress` and
`FindService` report zero items as a not-found error, which sets `errored`. -/
theorem Delete_nothing_found (K : K8sClientStruct σ) (body : Body) (w : World σ)
    (typeName : String) (c1 c2 c3 : σ)
    (hT : (stringsSplit body.DomainName '.')[0]? = some typeName)
    (hD : K.Client.listDeployments K.Namespace ("app=" ++ typeName) w.cluster = (.ok [], c1))
    (hI : K.Client.listIngresses K.Namespace ("app=" ++ typeName) c1 = (.ok [], c2))
    (hS : K.Client.listServices K.Namespace ("app=" ++ typeName) c2 = (.ok [], c3)) :
    issued w (Delete K (.ok body) w).2 =
      [Call.listDeployments K.Namespace ("app=" ++ typeName),
       Call.listIngresses K.Namespace ("app=" ++ typeName),
       Call.listServices K.Namespace ("app=" ++ typeName)] ∧
    (∀ call ∈ issued w (Delete K (.ok body) w).2, call.isDelete = false) ∧
    (Delete K (.ok body) w).1 = writeHeader StatusInternalServerError := by
  have e1 := deleteDeploymentStep_empty K typeName false w c1 hD
  have e2 := deleteIngressStep_empty K typeName true
    ⟨c1, w.calls ++ [Call.listDeployments K.Namespace ("app=" ++ typeName)]⟩ c2 hI
  have e3 := deleteServiceStep_empty K typeName true
    ⟨c2, (w.calls ++ [Call.listDeployments K.Namespace ("app=" ++ typeName)]) ++
      [Call.listIngresses K.Namespace ("app=" ++ typeName)]⟩ c3 hS
  have hrun : Delete K (.ok body) w = (writeHeader StatusInternalServerError,
      ⟨c3, w.calls ++ [Call.listDeployments K.Namespace ("app=" ++ typeName),
        Call.listIngresses K.Namespace ("app=" ++ typeName),
        Call.listServices K.Namespace ("app=" ++ typeName)]⟩) := by
    simp only [Delete, hT, e1, e2, e3]
    simp
  rw [hrun, issued_append]
  refine ⟨rfl, ?_, rfl⟩
  intro call hc
  simp only [List.mem_cons, List.mem_singleton, List.not_mem_nil, or_false] at hc
  rcases hc with h | h | h <;> simp [h, Call.isDelete]

/-- C1, amended, on the control plane that holds nothing: three lookups, no
delete, status 500. -/
theorem Delete_nothing_found_witness :
    (issued freshWorld (Delete acceptingCluster (.ok sampleBody) freshWorld).2).map
        Call.isDelete = [false, false, false] ∧
    (Delete acceptingCluster (.ok sampleBody) freshWorld).1.status = some 500 := by
  obtain ⟨h1, _, h3⟩ := Delete_nothing_found acceptingCluster sampleBody freshWorld "foo"
    () () () rfl rfl rfl rfl
  rw [h1, h3]
  exact ⟨rfl, rfl⟩

/-- C2: for every request and every outcome of the gateway calls `Delete`
reaches its final response and has looked up all three kinds (Deployment,
Ingress, Service) by then. In particular, when the Deployment lookup fails
while the Ingress and Service lookups each return at least one item and their
deletes succeed, `Delete` deletes the first Ingress and the first Service
found and responds with a server error (500). -/
theorem Delete_looks_up_all_three_kinds (K : K8sClientStruct σ) (body : Body) (w : World σ) :
    ∃ typeName, (stringsSplit body.DomainName '.')[0]? = some typeName ∧
      ((Delete K (.ok body) w).1 = writeHeader StatusInternalServerError ∨
        (Delete K (.ok body) w).1 = writeHeader StatusNoContent) ∧
      (issued w (Delete K (.ok body) w).2).filter Call.isList =
        [Call.listDeployments K.Namespace ("app=" ++ typeName),
         Call.listIngresses K.Namespace ("app=" ++ typeName),
         Call.listServices K.Namespace ("app=" ++ typeName)] ∧
      (∀ (e : String) (ing : Ingress) (ings : List Ingress) (svc : Service)
          (svcs : List Service) (c1 c2 c3 c4 c5 : σ),
        K.Client.listDeployments K.Namespace ("app=" ++ typeName) w.cluster = (.error e, c1) →
        K.Client.listIngresses K.Namespace ("app=" ++ typeName) c1 = (.ok (ing :: ings), c2) →
        K.Client.deleteIngress K.Namespace ing.ObjectMeta.Name c2 = (none, c3) →
        K.Client.listServices K.Namespace ("app=" ++ typeName) c3 = (.ok (svc :: svcs), c4) →
        K.Client.deleteService K.Namespace svc.ObjectMeta.Name c4 = (none, c5) →
        issued w (Delete K (.ok body) w).2 =
          [Call.listDeployments K.Namespace ("app=" ++ typeName),
           Call.listIngresses K.Namespace ("app=" ++ typeName),
           Call.deleteIngress K.Namespace ing.ObjectMeta.Name,
           Call.listServices K.Namespace ("app=" ++ typeName),
           Call.deleteService K.Namespace svc.ObjectMeta.Name] ∧
        (Delete K (.ok body) w).1 = writeHeader StatusInternalServerError) := by
  obtain ⟨typeName, hT, _⟩ := stringsSplit_zero body.DomainName '.'
  refine ⟨typeName, hT, ?_, ?_, ?_⟩
  · simp only [Delete, hT]
    split <;> simp
  · exact Delete_issued_lookups K body w typeName hT
  · intro e ing ings svc svcs c1 c2 c3 c4 c5 hD hI hID hS hSD
    have e1 := deleteDeploymentStep_failed K typeName false w e c1 hD
    have e2 := deleteIngressStep_deleted K typeName true
      ⟨c1, w.calls ++ [Call.listDeployments K.Namespace ("app=" ++ typeName)]⟩
      ing ings c2 c3 hI hID
    have e3 := deleteServiceStep_deleted K typeName true
      ⟨c3, (w.calls ++ [Call.listDeployments K.Namespace ("app=" ++ typeName)]) ++
        [Call.listIngresses K.Namespace ("app=" ++ typeName),
         Call.deleteIngress K.Namespace ing.ObjectMeta.Name]⟩
      svc svcs c4 c5 hS hSD
    have hrun : Delete K (.ok body) w = (writeHeader StatusInternalServerError,
        ⟨c5, w.calls ++ [Call.listDeployments K.Namespace ("app=" ++ typeName),
          Call.listIngresses K.Namespace ("app=" ++ typeName),
          Call.deleteIngress K.Namespace ing.ObjectMeta.Name,
          Call.listServices K.Namespace ("app=" ++ typeName),
          Call.deleteService K.Namespace svc.ObjectMeta.Name]⟩) := by
      simp only [Delete, hT, e1, e2, e3]
      simp
    rw [hrun, issued_append]
    exact ⟨rfl, rfl⟩

/-- C2, on a control plane whose Deployment lookup fails while two Ingresses
and one Service are found: `Delete` deletes `ingress-a1` and `service-c3` and
answers 500. -/
theorem Delete_looks_up_all_three_kinds_witness :
    issued freshWorld (Delete deploymentLookupFailingCluster (.ok sampleBody) freshWorld).2 =
      [Call.listDeployments "dynamic-sites" "app=foo",
       Call.listIngresses "dynamic-sites" "app=foo",
       Call.deleteIngress "dynamic-sites" "ingress-a1",
       Call.listServices "dynamic-sites" "app=foo",
       Call.deleteService "dynamic-sites" "service-c3"] ∧
    (Delete deploymentLookupFailingCluster (.ok sampleBody) freshWorld).1.status = some 500 := by
  obtain ⟨t, hT, _, _, h⟩ :=
    Delete_looks_up_all_three_kinds deploymentLookupFailingCluster sampleBody freshWorld
  have h0 : (stringsSplit sampleBody.DomainName '.')[0]? = some "foo" := rfl
  have ht : t = "foo" := Option.some.inj (hT.symm.trans h0)
  subst ht
  obtain ⟨h1, h2⟩ := h "connection refused" (sampleIngress "ingress-a1")
    [sampleIngress "ingress-b2"] (sampleService "service-c3") [] () () () () ()
    rfl rfl rfl rfl rfl
  rw [h1, h2]
  exact ⟨rfl, rfl⟩

/-! ## The specs that `Post` builds -/

/-- C6, counterexample: for `foo.example.com` and site `S1` on a control plane
that stores everything, the three specs that `Post` submits do not carry one
label set: the Deployment has a label the Ingress lacks, and no key carries the
site identifier in all three. -/
theorem Post_label_sets_differ :
    ∃ dep svc ing, issued freshWorld
        (Post acceptingCluster sampleUUID (.ok sampleBody) freshWorld).2 =
        [Call.createDeployment "dynamic-sites" dep, Call.createService "dynamic-sites" svc,
         Call.createIngress "dynamic-sites" ing] ∧
      ¬ GoMap.Equal dep.ObjectMeta.Labels ing.ObjectMeta.Labels ∧
      ¬ ∃ key, dep.ObjectMeta.Labels.lookup key = some "S1" ∧
        svc.ObjectMeta.Labels.lookup key = some "S1" ∧
        ing.ObjectMeta.Labels.lookup key = some "S1" := by
  refine ⟨deployParams "dynamic-sites" sampleUUID "foo" sampleBody,
    serviceParams "dynamic-sites" sampleUUID "foo" sampleBody
      (storedDeployment (deployParams "dynamic-sites" sampleUUID "foo" sampleBody)),
    ingressParams "dynamic-sites" sampleUUID "foo" sampleBody
      (storedService (serviceParams "dynamic-sites" sampleUUID "foo" sampleBody
        (storedDeployment (deployParams "dynamic-sites" sampleUUID "foo" sampleBody)))),
    rfl, ?_, ?_⟩
  · intro h
    have := h "workload.user.cattle.io/workloadselector"
    revert this
    decide
  · rintro ⟨key, _, h2, h3⟩
    simp only [serviceParams, ingressParams, sampleBody, GoMap.lookup] at h2 h3
    by_cases hk : "websiteId" = key
    · subst hk
      revert h3
      decide
    · rw [if_neg hk] at h2
      by_cases hk2 : "app" = key
      · subst hk2
        revert h2
        decide
      · rw [if_neg hk2] at h2
        exact absurd h2 (by simp)

/-- C6, amended: for every domain name and site identifier, the Deployment,
the Service and the Ingress specs built by `Post` all carry the label `app`
equal to the derived identity; the Deployment and the Ingress carry the label
`website-id` equal to the site identifier of the request, and the Deployment
carries the workload-selector label besides. Every call that `Post` issues
submits one of these specs. -/
theorem Post_labels (K : K8sClientStruct σ) (uuid : Nat → String) (body : Body)
    (w : World σ) :
    ∃ typeName, (stringsSplit body.DomainName '.')[0]? = some typeName ∧
      (deployParams K.Namespace uuid typeName body).ObjectMeta.Labels =
        [("app", typeName), ("website-id", body.WebsiteID),
         ("workload.user.cattle.io/workloadselector",
           "apps.deployment-dynamic-sites-" ++ typeName)] ∧
      (∀ d, (serviceParams K.Namespace uuid typeName body d).ObjectMeta.Labels.lookup "app" =
        some typeName) ∧
      (∀ s, (ingressParams K.Namespace uuid typeName body s).ObjectMeta.Labels =
        [("app", typeName), ("website-id", body.WebsiteID)]) ∧
      (∀ call ∈ issued w (Post K uuid (.ok body) w).2,
        call = Call.createDeployment K.Namespace (deployParams K.Namespace uuid typeName body) ∨
        (∃ d, call = Call.createService K.Namespace
          (serviceParams K.Namespace uuid typeName body d)) ∨
        (∃ s, call = Call.createIngress K.Namespace
          (ingressParams K.Namespace uuid typeName body s))) := by
  obtain ⟨typeName, hT, _⟩ := stringsSplit_zero body.DomainName '.'
  refine ⟨typeName, hT, rfl, ?_, ?_, ?_⟩
  · intro d
    simp [serviceParams, GoMap.lookup]
  · intro s
    rfl
  · intro call hc
    exact Post_issued_mem K uuid body w typeName hT call hc

/-- C6, amended, on a control plane that stores everything: the three specs
submitted for `foo.example.com` all carry `app=foo`. -/
theorem Post_labels_witness :
    (issued freshWorld (Post acceptingCluster sampleUUID (.ok sampleBody) freshWorld).2).map
        (fun call => call.labels.lookup "app") = [some "foo", some "foo", some "foo"] := by
  obtain ⟨t, hT, hdep, hsvc, hing, _⟩ :=
    Post_labels acceptingCluster sampleUUID sampleBody freshWorld
  have h0 : (stringsSplit sampleBody.DomainName '.')[0]? = some "foo" := rfl
  have ht : t = "foo" := Option.some.inj (hT.symm.trans h0)
  subst ht
  have hrun : issued freshWorld
      (Post acceptingCluster sampleUUID (.ok sampleBody) freshWorld).2 =
      [Call.createDeployment "dynamic-sites"
          (deployParams acceptingCluster.Namespace sampleUUID "foo" sampleBody),
        Call.createService "dynamic-sites"
          (serviceParams acceptingCluster.Namespace sampleUUID "foo" sampleBody
            (storedDeployment (deployParams "dynamic-sites" sampleUUID "foo" sampleBody))),
        Call.createIngress "dynamic-sites"
          (ingressParams acceptingCluster.Namespace sampleUUID "foo" sampleBody
            (storedService (serviceParams "dynamic-sites" sampleUUID "foo" sampleBody
              (storedDeployment
                (deployParams "dynamic-sites" sampleUUID "foo" sampleBody)))))] := rfl
  rw [hrun]
  simp only [List.map_cons, List.map_nil, Call.labels, hdep, hsvc, hing]
  rfl

/-- C7, counterexample: for `foo.example.com` and site `S1` the selector of the
Service that `Post` submits is not equal, as a map, to the labels of the
Deployment it submits: the Deployment has the workload-selector label, the
selector has not. -/
theorem Post_service_selector_not_equal_labels :
    ∃ dep svc, (issued freshWorld
        (Post acceptingCluster sampleUUID (.ok sampleBody) freshWorld).2).take 2 =
        [Call.createDeployment "dynamic-sites" dep, Call.createService "dynamic-sites" svc] ∧
      svc.Spec.Selector.lookup "workload.user.cattle.io/workloadselector" = none ∧
      dep.ObjectMeta.Labels.lookup "workload.user.cattle.io/workloadselector" =
        some "apps.deployment-dynamic-sites-foo" ∧
      ¬ GoMap.Equal svc.Spec.Selector dep.ObjectMeta.Labels ∧
      ¬ GoMap.Equal svc.Spec.Selector dep.Spec.Template.ObjectMeta.Labels := by
  refine ⟨deployParams "dynamic-sites" sampleUUID "foo" sampleBody,
    serviceParams "dynamic-sites" sampleUUID "foo" sampleBody
      (storedDeployment (deployParams "dynamic-sites" sampleUUID "foo" sampleBody)),
    rfl, rfl, rfl, ?_, ?_⟩
  · intro h
    have := h "workload.user.cattle.io/workloadselector"
    revert this
    decide
  · intro h
    have := h "workload.user.cattle.io/workloadselector"
    revert this
    decide

/-- C7, amended: for every domain name and site identifier, the selector of the
Service spec built by `Post` is the map `app` to the identity and `website-id`
to the site identifier; each of its pairs is a label of the Deployment and of
its pod template. The label sets of the Deployment and of its pod template are
equal to each other and contain one more label, under the key
`workload.user.cattle.io/workloadselector`, which the selector lacks: on every
other key the labels and the selector agree. Every call that `Post` issues
submits one of the specs it built. -/
theorem Post_service_selector_within_labels (K : K8sClientStruct σ) (uuid : Nat → String)
    (body : Body) (w : World σ) :
    ∃ typeName, (stringsSplit body.DomainName '.')[0]? = some typeName ∧
      (deployParams K.Namespace uuid typeName body).ObjectMeta.Labels =
        (deployParams K.Namespace uuid typeName body).Spec.Template.ObjectMeta.Labels ∧
      (deployParams K.Namespace uuid typeName body).ObjectMeta.Labels.lookup
        "workload.user.cattle.io/workloadselector" =
          some ("apps.deployment-dynamic-sites-" ++ typeName) ∧
      (deployParams K.Namespace uuid typeName body).Spec.Template.ObjectMeta.Labels.lookup
        "workload.user.cattle.io/workloadselector" =
          some ("apps.deployment-dynamic-sites-" ++ typeName) ∧
      (∀ d, (serviceParams K.Namespace uuid typeName body d).Spec.Selector =
          [("app", typeName), ("website-id", body.WebsiteID)] ∧
        GoMap.Sub (serviceParams K.Namespace uuid typeName body d).Spec.Selector
          (deployParams K.Namespace uuid typeName body).ObjectMeta.Labels ∧
        GoMap.Sub (serviceParams K.Namespace uuid typeName body d).Spec.Selector
          (deployParams K.Namespace uuid typeName body).Spec.Template.ObjectMeta.Labels ∧
        (serviceParams K.Namespace uuid typeName body d).Spec.Selector.lookup
          "workload.user.cattle.io/workloadselector" = none ∧
        (∀ k, k ≠ "workload.user.cattle.io/workloadselector" →
          (deployParams K.Namespace uuid typeName body).ObjectMeta.Labels.lookup k =
            (serviceParams K.Namespace uuid typeName body d).Spec.Selector.lookup k) ∧
        (∀ k, k ≠ "workload.user.cattle.io/workloadselector" →
          (deployParams K.Namespace uuid typeName body).Spec.Template.ObjectMeta.Labels.lookup k =
            (serviceParams K.Namespace uuid typeName body d).Spec.Selector.lookup k)) ∧
      (∀ call ∈ issued w (Post K uuid (.ok body) w).2,
        call = Call.createDeployment K.Namespace (deployParams K.Namespace uuid typeName body) ∨
        (∃ d, call = Call.createService K.Namespace
          (serviceParams K.Namespace uuid typeName body d)) ∨
        (∃ s, call = Call.createIngress K.Namespace
          (ingressParams K.Namespace uuid typeName body s))) := by
  obtain ⟨typeName, hT, _⟩ := stringsSplit_zero body.DomainName '.'
  refine ⟨typeName, hT, rfl, ?_, ?_, ?_, ?_⟩
  · simp [deployParams, GoMap.lookup]
  · simp [deployParams, GoMap.lookup]
  · intro d
    refine ⟨rfl, ?_, ?_, ?_, ?_, ?_⟩
    · intro k v h
      simp only [serviceParams, deployParams, GoMap.lookup] at h ⊢
      split_ifs at h ⊢ <;> simp_all
    · intro k v h
      simp only [serviceParams, deployParams, GoMap.lookup] at h ⊢
      split_ifs at h ⊢ <;> simp_all
    · simp [serviceParams, GoMap.lookup]
    · intro k hk
      simp only [serviceParams, deployParams, GoMap.lookup]
      split_ifs with h1 h2 h3
      · rfl
      · rfl
      · exact absurd h3.symm hk
      · rfl
    · intro k hk
      simp only [serviceParams, deployParams, GoMap.lookup]
      split_ifs with h1 h2 h3
      · rfl
      · rfl
      · exact absurd h3.symm hk
      · rfl
  · intro call hc
    exact Post_issued_mem K uuid body w typeName hT call hc

/-- C7, amended, for `foo.example.com` and site `S1`: the selector is `app=foo`,
`website-id=S1`, both pairs are labels of the Deployment, and the Deployment
has the workload-selector label `apps.deployment-dynamic-sites-foo`, which the
selector has not. -/
theorem Post_service_selector_within_labels_witness :
    ∃ d, (serviceParams "dynamic-sites" sampleUUID "foo" sampleBody d).Spec.Selector =
        [("app", "foo"), ("website-id", "S1")] ∧
      (deployParams "dynamic-sites" sampleUUID "foo" sampleBody).ObjectMeta.Labels.lookup
        "app" = some "foo" ∧
      (deployParams "dynamic-sites" sampleUUID "foo" sampleBody).ObjectMeta.Labels.lookup
        "website-id" = some "S1" ∧
      (deployParams "dynamic-sites" sampleUUID "foo" sampleBody).ObjectMeta.Labels.lookup
        "workload.user.cattle.io/workloadselector" =
          some "apps.deployment-dynamic-sites-foo" ∧
      (serviceParams "dynamic-sites" sampleUUID "foo" sampleBody d).Spec.Selector.lookup
        "workload.user.cattle.io/workloadselector" = none := by
  obtain ⟨t, hT, _, hwl, _, h, _⟩ :=
    Post_service_selector_within_labels acceptingCluster sampleUUID sampleBody freshWorld
  have h0 : (stringsSplit sampleBody.DomainName '.')[0]? = some "foo" := rfl
  have ht : t = "foo" := Option.some.inj (hT.symm.trans h0)
  subst ht
  obtain ⟨hsel, hsub, _, hnone, _, _⟩ :=
    h (storedDeployment (deployParams "dynamic-sites" sampleUUID "foo" sampleBody))
  exact ⟨_, hsel, hsub "app" "foo" rfl, hsub "website-id" "S1" rfl, hwl, hnone⟩

/-- C8, counterexample: in the Deployment that `Post` submits for
`foo.example.com` the single container has `RunAsNonRoot` set to false, so
running as non-root is not required. -/
theorem Post_container_may_run_as_root :
    ∃ dep container sc, (issued freshWorld
        (Post acceptingCluster sampleUUID (.ok sampleBody) freshWorld).2).head? =
        some (Call.createDeployment "dynamic-sites" dep) ∧
      dep.Spec.Template.Spec.Containers = [container] ∧
      container.SecurityContext = some sc ∧
      sc.RunAsNonRoot = some false ∧ sc.RunAsNonRoot ≠ some true := by
  refine ⟨deployParams "dynamic-sites" sampleUUID "foo" sampleBody, _, _, rfl, rfl, rfl, rfl, ?_⟩
  decide

/-- C8, amended: for every request the Deployment that `Post` submits first has
a single container whose security context sets privilege escalation,
privileged, read-only root filesystem and run-as-non-root all to false (so
there is no requirement to run as non-root), and which exposes exactly one
port, 8000/TCP. -/
theorem Post_container_posture (K : K8sClientStruct σ) (uuid : Nat → String) (body : Body)
    (w : World σ) :
    ∃ typeName dep container,
      (stringsSplit body.DomainName '.')[0]? = some typeName ∧
      dep = deployParams K.Namespace uuid typeName body ∧
      (issued w (Post K uuid (.ok body) w).2).head? =
        some (Call.createDeployment K.Namespace dep) ∧
      dep.Spec.Template.Spec.Containers = [container] ∧
      container.SecurityContext = some
        { AllowPrivilegeEscalation := some false
          Privileged := some false
          ReadOnlyRootFilesystem := some false
          RunAsNonRoot := some false } ∧
      container.Ports =
        [{ Name := "port-0", ContainerPort := 8000, Protocol := Protocol.ProtocolTCP }] := by
  obtain ⟨typeName, hT, _⟩ := stringsSplit_zero body.DomainName '.'
  exact ⟨typeName, deployParams K.Namespace uuid typeName body, _, hT, rfl,
    Post_issued_head K uuid body w typeName hT, rfl, rfl, rfl⟩

/-- C9: for every domain name the Ingress spec built by `Post` has exactly one
rule, whose host is the full domain name and whose single path is `/` with
prefix matching; exactly one TLS entry, whose host list is the domain name
alone and whose secret name is `letsencrypt-` followed by the full domain
name; and the annotation `cert-manager.io/cluster-issuer` with the value
`letsencrypt-prod`. Every Ingress create that `Post` issues submits this spec. -/
theorem Post_ingress_rule_and_tls (K : K8sClientStruct σ) (uuid : Nat → String) (body : Body)
    (w : World σ) :
    ∃ typeName, (stringsSplit body.DomainName '.')[0]? = some typeName ∧
      (∀ s, ∃ rule path,
        (ingressParams K.Namespace uuid typeName body s).Spec.Rules = [rule] ∧
        rule.Host = body.DomainName ∧
        rule.HTTP = some { Paths := [path] } ∧
        path.Path = "/" ∧ path.PathType = some PathType.PathTypePrefix ∧
        (ingressParams K.Namespace uuid typeName body s).Spec.TLS =
          [{ Hosts := [body.DomainName], SecretName := "letsencrypt-" ++ body.DomainName }] ∧
        (ingressParams K.Namespace uuid typeName body s).ObjectMeta.Annotations.lookup
          "cert-manager.io/cluster-issuer" = some "letsencrypt-prod") ∧
      (∀ ns ing, Call.createIngress ns ing ∈ issued w (Post K uuid (.ok body) w).2 →
        ∃ s, ing = ingressParams K.Namespace uuid typeName body s) := by
  obtain ⟨typeName, hT, _⟩ := stringsSplit_zero body.DomainName '.'
  refine ⟨typeName, hT, ?_, ?_⟩
  · intro s
    exact ⟨_, _, rfl, rfl, rfl, rfl, rfl, rfl, by simp [ingressParams, GoMap.lookup]⟩
  · intro ns ing hc
    rcases Post_issued_mem K uuid body w typeName hT _ hc with h | ⟨d, h⟩ | ⟨s, h⟩
    · cases h
    · cases h
    · simp only [Call.createIngress.injEq] at h
      exact ⟨s, h.2⟩

/-- C9, on a control plane that stores everything: the Ingress submitted for
`foo.example.com` has the host `foo.example.com` and the TLS secret
`letsencrypt-foo.example.com`. -/
theorem Post_ingress_rule_and_tls_witness :
    ∃ ing, Call.createIngress "dynamic-sites" ing ∈ issued freshWorld
        (Post acceptingCluster sampleUUID (.ok sampleBody) freshWorld).2 ∧
      ing.Spec.Rules.map (fun r => r.Host) = ["foo.example.com"] ∧
      ing.Spec.TLS =
        [{ Hosts := ["foo.example.com"], SecretName := "letsencrypt-foo.example.com" }] := by
  obtain ⟨t, hT, hspec, hlink⟩ :=
    Post_ingress_rule_and_tls acceptingCluster sampleUUID sampleBody freshWorld
  have hmem : Call.createIngress "dynamic-sites"
      (ingressParams "dynamic-sites" sampleUUID "foo" sampleBody
        (storedService (serviceParams "dynamic-sites" sampleUUID "foo" sampleBody
          (storedDeployment (deployParams "dynamic-sites" sampleUUID "foo" sampleBody))))) ∈
      issued freshWorld (Post acceptingCluster sampleUUID (.ok sampleBody) freshWorld).2 := by
    decide
  obtain ⟨s, hs⟩ := hlink _ _ hmem
  obtain ⟨rule, path, h1, h2, _, _, _, h6, _⟩ := hspec s
  refine ⟨_, hmem, ?_, ?_⟩
  · rw [hs, h1]
    simp only [List.map_cons, List.map_nil, h2]
    rfl
  · rw [hs, h6]
    rfl

/-! ## Create and delete agree on the identity -/

/-- C10: for every domain name and every kind, the label selector that `Delete`
sends to the gateway is `app=` followed by the identity, the very value of the
`app` label that `Post` puts on the spec of that kind for the same domain
name: the selector is the equality requirement on `app` that these labels
satisfy. -/
theorem Delete_selector_matches_Post_labels (K : K8sClientStruct σ) (uuid : Nat → String)
    (body : Body) (w w1 : World σ) :
    ∃ typeName, (stringsSplit body.DomainName '.')[0]? = some typeName ∧
      (issued w (Delete K (.ok body) w).2).filter Call.isList =
        [Call.listDeployments K.Namespace (equalitySelector "app" typeName),
         Call.listIngresses K.Namespace (equalitySelector "app" typeName),
         Call.listServices K.Namespace (equalitySelector "app" typeName)] ∧
      equalitySelector "app" typeName = "app=" ++ typeName ∧
      (deployParams K.Namespace uuid typeName body).ObjectMeta.Labels.satisfies
        "app" typeName ∧
      (∀ d, (serviceParams K.Namespace uuid typeName body d).ObjectMeta.Labels.satisfies
        "app" typeName) ∧
      (∀ s, (ingressParams K.Namespace uuid typeName body s).ObjectMeta.Labels.satisfies
        "app" typeName) ∧
      (∀ call ∈ issued w1 (Post K uuid (.ok body) w1).2,
        call = Call.createDeployment K.Namespace (deployParams K.Namespace uuid typeName body) ∨
        (∃ d, call = Call.createService K.Namespace
          (serviceParams K.Namespace uuid typeName body d)) ∨
        (∃ s, call = Call.createIngress K.Namespace
          (ingressParams K.Namespace uuid typeName body s))) := by
  obtain ⟨typeName, hT, _⟩ := stringsSplit_zero body.DomainName '.'
  have hlists := Delete_issued_lookups K body w typeName hT
  have hsel : equalitySelector "app" typeName = "app=" ++ typeName := by
    simp only [equalitySelector, String.append_assoc]
    rfl
  refine ⟨typeName, hT, ?_, hsel, ?_, ?_, ?_, ?_⟩
  · rw [hsel]
    exact hlists
  · simp [GoMap.satisfies, deployParams, GoMap.lookup]
  · intro d
    simp [GoMap.satisfies, serviceParams, GoMap.lookup]
  · intro s
    simp [GoMap.satisfies, ingressParams, GoMap.lookup]
  · intro call hc
    exact Post_issued_mem K uuid body w1 typeName hT call hc

/-- C10, for `foo.example.com`: `Delete` sends the selector `app=foo` for each
kind, and the three specs that `Post` submits carry the label `app=foo`. -/
theorem Delete_selector_matches_Post_labels_witness :
    (issued freshWorld (Delete acceptingCluster (.ok sampleBody) freshWorld).2).filter
        Call.isList =
      [Call.listDeployments "dynamic-sites" "app=foo",
       Call.listIngresses "dynamic-sites" "app=foo",
       Call.listServices "dynamic-sites" "app=foo"] ∧
    (issued freshWorld (Post acceptingCluster sampleUUID (.ok sampleBody) freshWorld).2).map
        (fun call => decide (call.labels.lookup "app" = some "foo")) = [true, true, true] := by
  obtain ⟨t, hT, hlists, hsel, _⟩ :=
    Delete_selector_matches_Post_labels acceptingCluster sampleUUID sampleBody
      freshWorld freshWorld
  have h0 : (stringsSplit sampleBody.DomainName '.')[0]? = some "foo" := rfl
  have ht : t = "foo" := Option.some.inj (hT.symm.trans h0)
  subst ht
  rw [hlists, hsel]
  exact ⟨rfl, by decide⟩

end K8s
